import Mathlib

/-!
Verification development for the MARVIN neural-network training visualizer.

Shallow embedding of the training-relevant core:
* the shape validator (`ShapeValidator.validateModelShape` in shape-validator.ts),
* the training worker loop and its message protocol (training-worker.ts),
* the unified store's training commands and worker-message reducers (oscar-store.ts),
* the legacy training store's start command (training-store.ts).

Machine floats are modelled with exact rationals `ℚ`; the spots where the
JavaScript float result provably coincides with the rational result are noted
at each use.  Values produced by the black-box numeric engine (losses, tensors,
predicted values) are not modelled; only the structure the claims speak about
(message kinds, epoch/batch indices, list lengths, index fields) is kept.
-/

namespace MARVIN

/-! ## Shape validator (shape-validator.ts) -/

/-- Issue kinds of `ShapeIssue.type`. -/
inductive IssueType
  | input_mismatch
  | layer_mismatch
  | output_mismatch
deriving DecidableEq

/-- Fix kinds of `ShapeFix.type`. -/
inductive FixType
  | adjust_input
  | adjust_layer
  | adjust_output
  | insert_layer
deriving DecidableEq

/-- A hyperparameter layer descriptor; `units` is optional (`units?: number`),
`none` models an absent field.  Fields not consulted by the validator
(activation, kernel size, ...) are omitted. -/
structure Layer where
  id : String
  ltype : String
  units : Option Nat
deriving DecidableEq

/-- A shape issue.  The human-readable `layerName`/`message` strings are not
modelled; the structural fields the claims speak about are kept. -/
structure ShapeIssue where
  itype : IssueType
  layerIndex : Nat
  layerId : String
  expected : Nat
  actual : Nat
deriving DecidableEq

/-- The result of a `ShapeFix.action` closure: either a full replacement layer
list or a new input-size scalar. -/
inductive FixAction
  | setLayers (layers : List Layer)
  | setInputSize (n : Nat)
deriving DecidableEq

/-- A corrective suggestion; `action` is evaluated eagerly here (the source
stores a closure computing the same value). -/
structure ShapeFix where
  ftype : FixType
  layerIndex : Nat
  layerId : String
  action : FixAction
deriving DecidableEq

structure ShapeValidationResult where
  isValid : Bool
  issues : List ShapeIssue
  suggestions : List ShapeFix
deriving DecidableEq

/-- JavaScript `u || d` on the optional `units` field: `0` and `undefined`
are falsy and fall back to `d`. -/
def unitsOr (u : Option Nat) (d : Nat) : Nat :=
  match u with
  | some n => if n = 0 then d else n
  | none => d

/-- JavaScript `u || 0` on the optional `units` field. -/
def unitsOrZero (u : Option Nat) : Nat :=
  unitsOr u 0

/-- JavaScript truthiness of an optional number: `some n` with `n ≠ 0`. -/
def jsTruthy (u : Option Nat) : Option Nat :=
  match u with
  | some n => if n = 0 then none else some n
  | none => none

/-- `inputShape: number | number[]`; an array is normalized to its last entry
(`inputShape[inputShape.length - 1]`, 0 standing in for the undefined value
read from an empty array). -/
inductive InputShape
  | scalar (n : Nat)
  | dims (l : List Nat)
deriving DecidableEq

def InputShape.toSize : InputShape → Nat
  | .scalar n => n
  | .dims l => l.getLastD 0

/-- The `currentSize` accumulator of the per-layer loop: each Dense layer with
truthy `units` replaces the running size (`currentSize = layer.units || currentSize`).
Non-Dense layers leave it unchanged. -/
def sizeAfterLayers (inputSize : Nat) (layers : List Layer) : Nat :=
  layers.foldl (fun cur l => if l.ltype = "Dense" then unitsOr l.units cur else cur) inputSize

/-- The input check of the per-layer loop.  The loop flags only at index 0
(`if (i === 0)`), for a Dense first layer with truthy `units` and
`inputSize > units * 10`; the suggestion raises the first layer to
`max(units || 0, ceil(inputSize / 2))` units.  `Math.ceil(inputSize / 2)`
is exact, equal to `(inputSize + 1) / 2` on naturals. -/
def firstLayerCheck (layers : List Layer) (inputSize : Nat) :
    List ShapeIssue × List ShapeFix :=
  match layers with
  | [] => ([], [])
  | l0 :: _ =>
    if l0.ltype = "Dense" then
      match jsTruthy l0.units with
      | some u =>
        if u * 10 < inputSize then
          ([⟨.input_mismatch, 0, l0.id, inputSize, u⟩],
           [⟨.adjust_layer, 0, l0.id,
             .setLayers (layers.set 0 { l0 with units := some (max u ((inputSize + 1) / 2)) })⟩])
        else ([], [])
      | none => ([], [])
    else ([], [])

/-- The output check: runs when `expectedOutputSize` is truthy and the layer
list is non-empty; `lastLayerOutputSize = lastLayer.units || currentSize`
(with `currentSize` the accumulator after the whole per-layer loop), and a
mismatch pushes one `output_mismatch` issue and one `adjust_output` suggestion
rewriting the last layer's units to the expected value. -/
def outputCheck (layers : List Layer) (inputSize : Nat)
    (expectedOutputSize : Option Nat) : List ShapeIssue × List ShapeFix :=
  match jsTruthy expectedOutputSize, layers.getLast? with
  | some e, some last =>
    let lastOut := unitsOr last.units (sizeAfterLayers inputSize layers)
    if lastOut ≠ e then
      ([⟨.output_mismatch, layers.length - 1, last.id, e, lastOut⟩],
       [⟨.adjust_output, layers.length - 1, last.id,
         .setLayers (layers.set (layers.length - 1) { last with units := some e })⟩])
    else ([], [])
  | _, _ => ([], [])

/-- The bottleneck check at one interior index `i`: both layer `i` and layer
`i-1` Dense, `currentUnits < prevUnits * 0.1` and `currentUnits < 16`.
With `prevUnits ≤ 2^53` the float product `prevUnits * 0.1` compares to the
integer `currentUnits` exactly as the rational `prevUnits / 10` does, so the
first condition is `currentUnits * 10 < prevUnits`.  `Math.ceil(prevUnits * 0.25)`
is exact (0.25 is a binary float), equal to `(prevUnits + 3) / 4` on naturals. -/
def bottleneckAt (layers : List Layer) (i : Nat) : List ShapeIssue × List ShapeFix :=
  match layers[i]?, layers[i-1]? with
  | some l, some p =>
    if l.ltype = "Dense" ∧ p.ltype = "Dense" then
      let cu := unitsOrZero l.units
      let pu := unitsOrZero p.units
      if cu * 10 < pu ∧ cu < 16 then
        ([⟨.layer_mismatch, i, l.id, (pu + 3) / 4, cu⟩],
         [⟨.adjust_layer, i, l.id,
           .setLayers (layers.set i { l with units := some ((pu + 3) / 4) })⟩])
      else ([], [])
    else ([], [])
  | _, _ => ([], [])

/-- Accumulate the bottleneck check over a list of indices, in order. -/
def bottleneckFold (layers : List Layer) : List Nat → List ShapeIssue × List ShapeFix
  | [] => ([], [])
  | i :: rest =>
    let p := bottleneckAt layers i
    let q := bottleneckFold layers rest
    (p.1 ++ q.1, p.2 ++ q.2)

/-- The bottleneck loop `for (let i = 1; i < layers.length - 1; i++)`. -/
def bottleneckCheck (layers : List Layer) : List ShapeIssue × List ShapeFix :=
  bottleneckFold layers (List.range' 1 (layers.length - 2))

/-- `ShapeValidator.validateModelShape`.  An empty layer list short-circuits to
a valid result; otherwise the three checks run in source order (per-layer input
check, output check, bottleneck scan) and `isValid = issues.length === 0`. -/
def validateModelShape (layers : List Layer) (inputShape : InputShape)
    (expectedOutputSize : Option Nat) : ShapeValidationResult :=
  match layers with
  | [] => ⟨true, [], []⟩
  | _ :: _ =>
    let inputSize := inputShape.toSize
    let a := firstLayerCheck layers inputSize
    let b := outputCheck layers inputSize expectedOutputSize
    let c := bottleneckCheck layers
    let issues := a.1 ++ b.1 ++ c.1
    ⟨issues.isEmpty, issues, a.2 ++ b.2 ++ c.2⟩

/-- Number of `output_mismatch` issues in a validation result. -/
def outputMismatchCount (r : ShapeValidationResult) : Nat :=
  r.issues.countP (fun i => i.itype == IssueType.output_mismatch)

/-- The `adjust_output` suggestions of a validation result. -/
def outputFixes (r : ShapeValidationResult) : List ShapeFix :=
  r.suggestions.filter (fun f => f.ftype == FixType.adjust_output)

/-- The `units` field of the last layer produced by a fix action, when the
action replaces the layer list. -/
def actionLastUnits : FixAction → Option (Option Nat)
  | .setLayers ls => ls.getLast?.map Layer.units
  | .setInputSize _ => none

/-! ## Training worker (training-worker.ts) -/

/-- One element of a `predictions` payload.  The numeric `prediction`, `input`
and `actual` values come from the black-box engine and are not modelled; the
`index` field is what the claims speak about. -/
structure Pred where
  index : Nat
deriving DecidableEq

/-- Worker → coordinator response messages. `metrics` keeps only its `epoch`
field (loss/accuracy values come from the black-box engine); `paused` carries
the optional `reason` field. -/
inductive WMsg
  | progress (epoch batch : Nat)
  | metrics (epoch : Nat)
  | predictions (ps : List Pred)
  | paused (epoch : Nat) (reason : Option String)
  | complete (finalEpoch : Nat)
  | error (msg : String)
deriving DecidableEq

/-- The training/data configuration installed by `config`/`start` payloads.
`speed` and `validationSplit` are floats, modelled as exact rationals;
the dataset rows themselves are passed alongside (see `applyConfig`). -/
structure TrainCfg where
  epochs : Nat
  batchSize : Nat
  speed : ℚ
  validationSplit : Option ℚ
deriving DecidableEq

/-- A 2-d tensor as a row list. -/
abbrev Rows := List (List ℚ)

structure TrainData where
  xs : Rows
  ys : Rows
deriving DecidableEq

/-- `tensor.slice([begin, 0], [size, -1])` along axis 0: `-1` takes the rest. -/
def tfSlice0 (rows : Rows) (begin0 : Nat) (size : Int) : Rows :=
  if size < 0 then rows.drop begin0 else (rows.drop begin0).take size.toNat

/-- `Math.floor` of a non-negative rational, as a natural number. -/
def ratFloorNat (q : ℚ) : Nat :=
  (Int.floor q).toNat

/-- `Math.floor(xsData.length * (1 - validationSplit))`. -/
def splitIndexOf (n : Nat) (s : ℚ) : Nat :=
  ratFloorNat ((n : ℚ) * (1 - s))

/-- The data preparation of the worker's `config`/`start` handler: with a
truthy positive `validationSplit`, the first `splitIndex` rows become the
training slices and the remainder the validation slices; otherwise the whole
tensors are the training data and there is no validation data. -/
def prepareData (xs ys : Rows) (validationSplit : Option ℚ) :
    TrainData × Option TrainData :=
  match validationSplit with
  | some s =>
    if 0 < s then
      let k := splitIndexOf xs.length s
      (⟨tfSlice0 xs 0 (k : Int), tfSlice0 ys 0 (k : Int)⟩,
       some ⟨tfSlice0 xs k (-1), tfSlice0 ys k (-1)⟩)
    else (⟨xs, ys⟩, none)
  | none => (⟨xs, ys⟩, none)

/-- The worker's module-level mutable state. -/
structure WorkerState where
  hasModel : Bool
  isTraining : Bool
  isPaused : Bool
  currentEpoch : Nat
  trainingData : Option TrainData
  validationData : Option TrainData
  config : Option TrainCfg
deriving DecidableEq

def initialWorkerState : WorkerState :=
  ⟨false, false, false, 0, none, none, none⟩

/-- The `config` (and `start`-with-payload) handler: install the configuration
and prepare the training/validation tensors. -/
def applyConfig (st : WorkerState) (cfg : TrainCfg) (xs ys : Rows) : WorkerState :=
  let p := prepareData xs ys cfg.validationSplit
  { st with config := some cfg, trainingData := some p.1, validationData := p.2 }

/-- Engine contract: `fit` partitions the `n` samples into `⌈n / batchSize⌉`
batches and invokes `onBatchEnd` once per batch. -/
def batchesPerEpoch (n batchSize : Nat) : Nat :=
  (n + batchSize - 1) / batchSize

/-- The prediction entries built by `sendPredictions`' loop
`for (let index = 0; index < numSamples; index++)`. -/
def stdPreds (len : Nat) : List Pred :=
  (List.range len).map (fun i => ⟨i⟩)

/-- The message built by `sendPredictions`: one entry per row of
`trainingData.xs` (`numSamples = trainingData.xs.shape[0]`), with `index`
running from `0`. -/
def predMsg (td : TrainData) : WMsg :=
  .predictions (stdPreds td.xs.length)

/-- `model.fit` is invoked with `epochs: 1`, so the engine's `onEpochEnd`
callback fires exactly once per `trainStep` call, with epoch index `0`.
`onEpochEnd` assigns this index to `currentEpoch` and emits it as the
`metrics` payload's `epoch`. -/
def fitEpochIndex : Nat := 0

/-- The messages of one uninterrupted `trainStep` call whose surrounding loop
set `currentEpoch = outerEpoch`: one `progress` per batch (carrying the
current `currentEpoch`), then the `metrics` message with the fit-internal
epoch index, then the `predictions` recomputation. -/
def epochMsgs (td : TrainData) (batchSize outerEpoch : Nat) : List WMsg :=
  ((List.range (batchesPerEpoch td.xs.length batchSize)).map
      (fun b => WMsg.progress outerEpoch b))
    ++ [WMsg.metrics fitEpochIndex, predMsg td]

/-- The messages of the first `n` iterations of the epoch loop (uninterrupted,
speed not 0). -/
def loopMsgs (td : TrainData) (batchSize : Nat) : Nat → List WMsg
  | 0 => []
  | Nat.succ k => loopMsgs td batchSize k ++ epochMsgs td batchSize k

/-- Outcome of one `startTraining()` invocation: the final worker state, the
posted messages in order, and the number of `trainStep` (fit) calls made. -/
structure StartOutcome where
  state : WorkerState
  msgs : List WMsg
  fits : Nat
deriving DecidableEq

/-- `startTraining()`, for an execution in which no pause/resume/stop command
arrives while it runs and every fit call succeeds.  Unconfigured state throws
`"Training not configured"`, which the `onmessage` catch posts as an `error`
message.  A model is created (with an initial `predictions` message) when none
exists.  The epoch loop checks `speed === 0` at its head and, in that case,
sets `isPaused`, posts `paused{epoch, reason:'manual_mode'}` and returns
without fitting; any other speed runs all epochs (sub-real-time speeds only
add a delay).  After the loop, `complete{finalEpoch: currentEpoch}` is posted
— and `currentEpoch` has last been overwritten by `onEpochEnd` with the
fit-internal index `0`. -/
def workerStartTraining (st : WorkerState) : StartOutcome :=
  match st.config, st.trainingData with
  | some cfg, some td =>
    let initMsgs := if st.hasModel then [] else [predMsg td]
    let st2 : WorkerState := { st with isTraining := true, isPaused := false, hasModel := true }
    if cfg.epochs = 0 then
      ⟨st2, initMsgs ++ [WMsg.complete st2.currentEpoch], 0⟩
    else if cfg.speed = 0 then
      ⟨{ st2 with currentEpoch := 0, isPaused := true },
       initMsgs ++ [WMsg.paused 0 (some ("manual_mode"))], 0⟩
    else
      ⟨{ st2 with currentEpoch := fitEpochIndex },
       initMsgs ++ loopMsgs td cfg.batchSize cfg.epochs ++ [WMsg.complete fitEpochIndex],
       cfg.epochs⟩
  | _, _ => ⟨st, [WMsg.error ("Training not configured")], 0⟩

/-- The `pause` command handler: set the pause flag. -/
def workerPause (st : WorkerState) : WorkerState :=
  { st with isPaused := true }

/-- The `stop` command handler: clear both flags, reset the worker-side
`currentEpoch`, and dispose the model and the data tensors. -/
def workerStop (st : WorkerState) : WorkerState :=
  { st with isTraining := false, isPaused := false, currentEpoch := 0,
            hasModel := false, trainingData := none, validationData := none }

/-- The cooperative cancellation check in `onBatchEnd`: after posting that
batch's `progress` and yielding, the fit is aborted by throwing when
`isPaused || !isTraining`. -/
def batchYieldCancels (st : WorkerState) : Bool :=
  st.isPaused || !st.isTraining

/-- The `catch` block of `startTraining`: an aborted fit is reported as
`paused{epoch: currentEpoch}` when `isPaused` is set at catch time, and as an
`error` carrying the thrown message otherwise. -/
def interruptMsg (st : WorkerState) : WMsg :=
  if st.isPaused then WMsg.paused st.currentEpoch none
  else WMsg.error ("Training paused or stopped")

/-- A `step` command payload.  `typeField` models `payload.type`; the unified
store posts `{ stepType: 'batch' }`, whose `type` field is undefined (`none`). -/
structure StepPayload where
  typeField : Option String
deriving DecidableEq

/-- The guard of the `step` case: `config && trainingData && config.speed === 0`. -/
def stepGuards (st : WorkerState) : Bool :=
  match st.config, st.trainingData with
  | some cfg, some _ => decide (cfg.speed = 0)
  | _, _ => false

/-- One `trainStep` call under the current flags: if the cancellation flags
are already set, the first `onBatchEnd` posts its `progress` and then throws;
otherwise (no command arriving mid-fit) the full epoch runs and `onEpochEnd`
overwrites `currentEpoch` with the fit-internal index.  The `Bool` result
records whether the pause/stop exception was raised. -/
def trainStepRun (st : WorkerState) (td : TrainData) (batchSize : Nat) :
    List WMsg × WorkerState × Bool :=
  if batchYieldCancels st then
    ([WMsg.progress st.currentEpoch 0], st, true)
  else
    (epochMsgs td batchSize st.currentEpoch, { st with currentEpoch := fitEpochIndex }, false)

/-- The `step` case of `onmessage`: behind the guard, `payload.type === 'batch'`
runs one `trainStep`, `'epoch'` increments `currentEpoch` and runs one
`trainStep`, and any other `type` value does nothing.  A throw escaping
`trainStep` is posted as an `error` by the surrounding catch.  Returns the new
state, the posted messages, and the number of `trainStep` calls made. -/
def handleStep (st : WorkerState) (payload : StepPayload) :
    WorkerState × List WMsg × Nat :=
  if stepGuards st then
    match st.config, st.trainingData with
    | some cfg, some td =>
      match payload.typeField with
      | some t =>
        if t = "batch" then
          let r := trainStepRun st td cfg.batchSize
          (r.2.1, r.1 ++ (if r.2.2 then [WMsg.error ("Training paused or stopped")] else []), 1)
        else if t = "epoch" then
          let r := trainStepRun { st with currentEpoch := st.currentEpoch + 1 } td cfg.batchSize
          (r.2.1, r.1 ++ (if r.2.2 then [WMsg.error ("Training paused or stopped")] else []), 1)
        else (st, [], 0)
      | none => (st, [], 0)
    | _, _ => (st, [], 0)
  else (st, [], 0)

/-- The epoch values carried by the `metrics` messages of a trace, in order. -/
def metricsEpochs (msgs : List WMsg) : List Nat :=
  msgs.filterMap (fun m => match m with | WMsg.metrics e => some e | _ => none)

/-- The lengths of the `predictions` payloads of a trace, in order. -/
def predictionLengths (msgs : List WMsg) : List Nat :=
  msgs.filterMap (fun m => match m with | WMsg.predictions ps => some ps.length | _ => none)

/-- `predictions[i].index == i` for every position of the payload. -/
def alignedPreds (ps : List Pred) : Bool :=
  ps == stdPreds ps.length

/-- Every `predictions` payload of the trace is index-aligned and has the
given length. -/
def allPredsAlignedLen (msgs : List WMsg) (len : Nat) : Bool :=
  msgs.all (fun m =>
    match m with
    | WMsg.predictions ps => alignedPreds ps && (ps.length == len)
    | _ => true)

/-- Whether the trace contains a `complete` message. -/
def hasComplete (msgs : List WMsg) : Bool :=
  msgs.any (fun m => match m with | WMsg.complete _ => true | _ => false)

/-- Discriminator for `paused` messages. -/
def isPausedMsg : WMsg → Bool
  | .paused _ _ => true
  | _ => false

/-! ## Unified store (oscar-store.ts), training-relevant fields -/

inductive TState
  | idle
  | training
  | paused
  | stopped
  | completed
  | error
deriving DecidableEq

inductive ErrKind
  | shape_mismatch
  | general
deriving DecidableEq

/-- A stored metric point; only the `epoch` field is modelled (loss/accuracy
values come from the worker's black-box metrics). -/
structure MetricPoint where
  epoch : Nat
deriving DecidableEq

/-- Command messages a store posts to the worker.  Payload contents are not
modelled beyond the step type. -/
inductive WCmd
  | config
  | start
  | pause
  | resume
  | stop
  | step (stepType : String)
deriving DecidableEq

/-- The unified store's training-relevant state.  `worker` identifies the live
worker instance by a creation generation number (`none` = no worker);
activation snapshots are kept only as an opaque list. -/
structure OscarState where
  trainingState : TState
  currentEpoch : Nat
  currentBatch : Nat
  trainingMetrics : List MetricPoint
  layerActivations : List Unit
  modelPredictions : List Pred
  worker : Option Nat
  hasTrainingDataset : Bool
  hasModelConfig : Bool
  lastError : Option String
  errKind : Option ErrKind
deriving DecidableEq

/-- `startTraining` of the unified store: it requires an already-initialized
worker, a training dataset and a model config (each missing prerequisite only
records an error), and on acceptance posts the `start` message (with the full
config payload) to the existing worker and sets the state to `training`.
It does not clear metrics/predictions/activations, does not reset the epoch
and batch counters, and does not replace the worker. -/
def oscarStartTraining (s : OscarState) : OscarState × List WCmd :=
  match s.worker with
  | none => ({ s with lastError := some ("Training worker not initialized"),
                      errKind := some .general }, [])
  | some _ =>
    if !s.hasTrainingDataset then
      ({ s with lastError := some ("No training data available"),
                errKind := some .general }, [])
    else if !s.hasModelConfig then
      ({ s with lastError := some ("No model configuration available"),
                errKind := some .general }, [])
    else
      ({ s with trainingState := .training }, [WCmd.start])

/-- `pauseTraining`: post `pause` (if a worker exists) and set `paused`. -/
def oscarPauseTraining (s : OscarState) : OscarState × List WCmd :=
  ({ s with trainingState := .paused },
   match s.worker with | some _ => [WCmd.pause] | none => [])

/-- `stopTraining` of the unified store: post `stop` to and terminate the
worker (if any), then set the state to `idle` and drop the worker handle.
`currentEpoch`/`currentBatch` and the metric/prediction collections are left
untouched. -/
def oscarStopTraining (s : OscarState) : OscarState × List WCmd :=
  ({ s with trainingState := .idle, worker := none },
   match s.worker with | some _ => [WCmd.stop] | none => [])

/-- `scrubToEpoch`: directly overwrite `currentEpoch`. -/
def oscarScrubToEpoch (s : OscarState) (e : Nat) : OscarState :=
  { s with currentEpoch := e }

/-- `resetTraining`: back to `idle` with counters zeroed and metrics cleared. -/
def oscarResetTraining (s : OscarState) : OscarState :=
  { s with trainingState := .idle, currentEpoch := 0, currentBatch := 0,
           trainingMetrics := [] }

/-- `resetModel` (the modelled fields): state `idle`, `currentEpoch` zeroed,
metrics cleared; `currentBatch` is not touched. -/
def oscarResetModel (s : OscarState) : OscarState :=
  { s with trainingState := .idle, currentEpoch := 0, trainingMetrics := [] }

/-- `clearAllData` (the modelled fields): terminate the worker and reset the
whole training partition. -/
def oscarClearAllData (s : OscarState) : OscarState :=
  { s with trainingState := .idle, currentEpoch := 0, currentBatch := 0,
           trainingMetrics := [], layerActivations := [], modelPredictions := [],
           worker := none, hasTrainingDataset := false,
           lastError := none, errKind := none }

/-- The `progress` branch of the unified store's worker message handler:
`currentEpoch: payload.epoch || state.currentEpoch` — a zero payload leaves
the counter unchanged (JavaScript `||` on numbers), likewise for the batch. -/
def oscarOnProgress (s : OscarState) (epoch batch : Nat) : OscarState :=
  { s with currentEpoch := if epoch = 0 then s.currentEpoch else epoch,
           currentBatch := if batch = 0 then s.currentBatch else batch }

/-- The `metrics` branch: `addMetric` appends the point (and nothing else). -/
def oscarOnMetrics (s : OscarState) (m : MetricPoint) : OscarState :=
  { s with trainingMetrics := s.trainingMetrics ++ [m] }

/-- The `predictions` branch: full replacement of `modelPredictions`. -/
def oscarOnPredictions (s : OscarState) (ps : List Pred) : OscarState :=
  { s with modelPredictions := ps }

/-- The `complete` branch. -/
def oscarOnComplete (s : OscarState) : OscarState :=
  { s with trainingState := .completed }

/-- The `paused` branch. -/
def oscarOnPaused (s : OscarState) : OscarState :=
  { s with trainingState := .paused }

/-- The `error` branch: back to `idle`, record the message
(`payload.message || "Training error occurred"`). -/
def oscarOnError (s : OscarState) (msg : Option String) : OscarState :=
  { s with trainingState := .idle,
           lastError := some (msg.getD ("Training error occurred")),
           errKind := some .general }

/-! ## Legacy training store (training-store.ts) -/

/-- The legacy training store's state (the fields its `startTraining` touches).
`worker` again carries an instance generation; `nextWorkerId` is the
generation the next `initializeWorker` call will assign. -/
structure LegacyState where
  trainingState : TState
  currentEpoch : Nat
  currentBatch : Nat
  totalEpochs : Nat
  trainingMetrics : List MetricPoint
  layerActivations : List Unit
  modelPredictions : List Pred
  worker : Option Nat
  nextWorkerId : Nat
  hasDataset : Bool
  cfgEpochs : Nat
deriving DecidableEq

/-- `clearMetrics`: clears metrics, activation snapshots and predictions. -/
def legacyClearMetrics (s : LegacyState) : LegacyState :=
  { s with trainingMetrics := [], layerActivations := [], modelPredictions := [] }

/-- `disposeWorker`: terminate and drop the worker handle. -/
def legacyDisposeWorker (s : LegacyState) : LegacyState :=
  { s with worker := none }

/-- `initializeWorker`: create a fresh worker instance unless one exists. -/
def legacyInitializeWorker (s : LegacyState) : LegacyState :=
  match s.worker with
  | some _ => s
  | none => { s with worker := some s.nextWorkerId, nextWorkerId := s.nextWorkerId + 1 }

/-- `startTraining` of the legacy training store: reject without a dataset;
otherwise clear metrics/activations/predictions, dispose the previous worker,
initialize a fresh one, set `training` with both counters zeroed and
`totalEpochs` fixed from the config, then post `config` followed by `start`. -/
def legacyStartTraining (s : LegacyState) : LegacyState × List WCmd :=
  if s.hasDataset then
    let s1 := legacyClearMetrics s
    let s2 := legacyInitializeWorker (legacyDisposeWorker s1)
    ({ s2 with trainingState := .training, currentEpoch := 0, currentBatch := 0,
               totalEpochs := s.cfgEpochs },
     [WCmd.config, WCmd.start])
  else (s, [])

/-! ## Concrete instances used by the claim checks

Rationals that are not whole numbers are written with `Rat.divInt` so that the
kernel can evaluate comparisons on them. -/

/-- 1/5, i.e. a `validationSplit` of 0.2. -/
def q15 : ℚ := Rat.divInt 1 5

/-- 2/5, i.e. a `validationSplit` of 0.4. -/
def q25 : ℚ := Rat.divInt 2 5

/-- A 100-sample dataset (feature values are irrelevant to the traced messages). -/
def rowsA : Rows := List.replicate 100 [0]

/-- The run configuration of the five-epoch scenario:
`epochs=5, batchSize=32, speed=1`, no validation split. -/
def cfgA : TrainCfg := { epochs := 5, batchSize := 32, speed := 1, validationSplit := none }

/-- The worker state after `config` with `cfgA` over the 100-sample dataset. -/
def stA : WorkerState := applyConfig initialWorkerState cfgA rowsA rowsA

/-- A 10-row dataset. -/
def rows10 : Rows := List.replicate 10 [0]

/-- One epoch, batch size 4, real-time speed, `validationSplit = 0.2`. -/
def cfgB : TrainCfg := { epochs := 1, batchSize := 4, speed := 1, validationSplit := some q15 }

/-- The worker state after `config` with `cfgB` over the 10-row dataset. -/
def stB : WorkerState := applyConfig initialWorkerState cfgB rows10 rows10

/-- Worker flag state mid-fit: training, not paused, at outer epoch 2. -/
def stMidRun : WorkerState :=
  { initialWorkerState with isTraining := true, currentEpoch := 2 }

/-- A unified-store state mid-run: training at epoch 3 with a live worker,
recorded metrics, predictions and an activation snapshot, and both start
prerequisites present. -/
def sTrain3 : OscarState :=
  { trainingState := .training, currentEpoch := 3, currentBatch := 1,
    trainingMetrics := [⟨0⟩], layerActivations := [()], modelPredictions := [⟨0⟩],
    worker := some 0, hasTrainingDataset := true, hasModelConfig := true,
    lastError := none, errKind := none }

/-- A legacy-store state with a dataset, a live worker of generation 0, stale
metrics/predictions/activations and a nonzero epoch counter. -/
def sLegacy : LegacyState :=
  { trainingState := .idle, currentEpoch := 3, currentBatch := 1, totalEpochs := 10,
    trainingMetrics := [⟨0⟩], layerActivations := [()], modelPredictions := [⟨0⟩],
    worker := some 0, nextWorkerId := 1, hasDataset := true, cfgEpochs := 7 }

/-- A single Dense layer whose `units` value is the number 0. -/
def layersUnitsZero : List Layer := [⟨"layer-1", "Dense", some 0⟩]

/-- The concrete architecture of the output-mismatch scenario: one Dense layer
of 10 units against an expected output size of 1. -/
def layersTen : List Layer := [⟨"layer-1", "Dense", some 10⟩]

/-- Manual-mode configuration: `speed = 0`, three epochs. -/
def cfgManual : TrainCfg := { epochs := 3, batchSize := 2, speed := 0, validationSplit := none }

/-- A 4-row dataset. -/
def rows4 : Rows := List.replicate 4 [0]

/-- The worker state after `config` with `cfgManual` over the 4-row dataset. -/
def stManual : WorkerState := applyConfig initialWorkerState cfgManual rows4 rows4

/-- A 5-row dataset for the split check. -/
def rows5 : Rows := List.replicate 5 [0]

/-! ## Shape validator lemmas -/

theorem firstLayerCheck_cases (layers : List Layer) (inputSize : Nat) :
    (∃ iss fix, firstLayerCheck layers inputSize = ([iss], [fix]) ∧
       iss.itype = IssueType.input_mismatch ∧ fix.ftype = FixType.adjust_layer) ∨
    firstLayerCheck layers inputSize = ([], []) := by
  unfold firstLayerCheck
  repeat' split
  all_goals first
    | exact Or.inr rfl
    | exact Or.inl ⟨_, _, rfl, rfl, rfl⟩

theorem outputCheck_cases (layers : List Layer) (inputSize : Nat)
    (expected : Option Nat) :
    (∃ iss fix, outputCheck layers inputSize expected = ([iss], [fix]) ∧
       iss.itype = IssueType.output_mismatch ∧ fix.ftype = FixType.adjust_output) ∨
    outputCheck layers inputSize expected = ([], []) := by
  unfold outputCheck
  split
  · dsimp only
    split
    · exact Or.inl ⟨_, _, rfl, rfl, rfl⟩
    · exact Or.inr rfl
  · exact Or.inr rfl

theorem bottleneckAt_cases (layers : List Layer) (i : Nat) :
    (∃ iss fix, bottleneckAt layers i = ([iss], [fix]) ∧
       iss.itype = IssueType.layer_mismatch ∧ fix.ftype = FixType.adjust_layer) ∨
    bottleneckAt layers i = ([], []) := by
  unfold bottleneckAt
  split
  · split
    · dsimp only
      split
      · exact Or.inl ⟨_, _, rfl, rfl, rfl⟩
      · exact Or.inr rfl
    · exact Or.inr rfl
  · exact Or.inr rfl

theorem firstLayerCheck_balanced (layers : List Layer) (inputSize : Nat) :
    (firstLayerCheck layers inputSize).1.length = (firstLayerCheck layers inputSize).2.length := by
  rcases firstLayerCheck_cases layers inputSize with ⟨iss, fix, h, _, _⟩ | h <;> rw [h] <;> rfl

theorem outputCheck_balanced (layers : List Layer) (inputSize : Nat) (expected : Option Nat) :
    (outputCheck layers inputSize expected).1.length
      = (outputCheck layers inputSize expected).2.length := by
  rcases outputCheck_cases layers inputSize expected with ⟨iss, fix, h, _, _⟩ | h <;> rw [h] <;> rfl

theorem bottleneckFold_balanced (layers : List Layer) (idxs : List Nat) :
    (bottleneckFold layers idxs).1.length = (bottleneckFold layers idxs).2.length := by
  induction idxs with
  | nil => rfl
  | cons i rest ih =>
    simp only [bottleneckFold, List.length_append, ih]
    rcases bottleneckAt_cases layers i with ⟨iss, fix, h, _, _⟩ | h <;> rw [h] <;> rfl

theorem bottleneckCheck_balanced (layers : List Layer) :
    (bottleneckCheck layers).1.length = (bottleneckCheck layers).2.length :=
  bottleneckFold_balanced layers _

theorem countP_output_firstLayerCheck (layers : List Layer) (inputSize : Nat) :
    (firstLayerCheck layers inputSize).1.countP
      (fun i => i.itype == IssueType.output_mismatch) = 0 := by
  rcases firstLayerCheck_cases layers inputSize with ⟨iss, fix, h, hiss, _⟩ | h
  · rw [h]; simp only [List.countP_cons, List.countP_nil, hiss]; decide
  · rw [h]; rfl

theorem countP_output_bottleneckFold (layers : List Layer) (idxs : List Nat) :
    (bottleneckFold layers idxs).1.countP
      (fun i => i.itype == IssueType.output_mismatch) = 0 := by
  induction idxs with
  | nil => rfl
  | cons i rest ih =>
    simp only [bottleneckFold, List.countP_append, ih]
    rcases bottleneckAt_cases layers i with ⟨iss, fix, h, hiss, _⟩ | h
    · rw [h]; simp only [List.countP_cons, List.countP_nil, hiss]; decide
    · rw [h]; rfl

theorem filter_adjout_firstLayerCheck (layers : List Layer) (inputSize : Nat) :
    (firstLayerCheck layers inputSize).2.filter
      (fun f => f.ftype == FixType.adjust_output) = [] := by
  rcases firstLayerCheck_cases layers inputSize with ⟨iss, fix, h, _, hfix⟩ | h
  · rw [h]; simp only [List.filter, hfix]; rfl
  · rw [h]; rfl

theorem filter_adjout_bottleneckFold (layers : List Layer) (idxs : List Nat) :
    (bottleneckFold layers idxs).2.filter
      (fun f => f.ftype == FixType.adjust_output) = [] := by
  induction idxs with
  | nil => rfl
  | cons i rest ih =>
    simp only [bottleneckFold, List.filter_append, ih]
    rcases bottleneckAt_cases layers i with ⟨iss, fix, h, _, hfix⟩ | h
    · rw [h]; simp only [List.filter, hfix]; rfl
    · rw [h]; rfl

theorem getLast?_set_last {α : Type} (l : List α) (a : α) (h : l ≠ []) :
    (l.set (l.length - 1) a).getLast? = some a := by
  have hlen : (l.set (l.length - 1) a).length = l.length := List.length_set l _ a
  have hpos : 0 < l.length := List.length_pos.mpr h
  have hlt : l.length - 1 < l.length := Nat.sub_lt hpos Nat.one_pos
  rw [List.getLast?_eq_getElem?, hlen]
  rw [List.getElem?_set_self (by omega)]

/-- `jsTruthy` of a nonzero number. -/
theorem jsTruthy_some_of_ne (e : Nat) (he : e ≠ 0) : jsTruthy (some e) = some e := by
  simp [jsTruthy, he]

/-- `unitsOr` of a truthy value. -/
theorem unitsOr_some_of_ne (u d : Nat) (hu : u ≠ 0) : unitsOr (some u) d = u := by
  simp [unitsOr, hu]

/-- The output check fires with the mismatching truthy last-layer units. -/
theorem outputCheck_fires (layers : List Layer) (inputSize : Nat) (last : Layer) (u e : Nat)
    (hlast : layers.getLast? = some last) (hu : last.units = some u)
    (hu0 : u ≠ 0) (he0 : e ≠ 0) (hne : u ≠ e) :
    outputCheck layers inputSize (some e) =
      ([⟨IssueType.output_mismatch, layers.length - 1, last.id, e, u⟩],
       [⟨FixType.adjust_output, layers.length - 1, last.id,
         FixAction.setLayers (layers.set (layers.length - 1) { last with units := some e })⟩]) := by
  simp only [outputCheck, jsTruthy_some_of_ne e he0, hlast, hu,
    unitsOr_some_of_ne u _ hu0]
  rw [if_pos hne]

theorem countP_output_bottleneckCheck (layers : List Layer) :
    (bottleneckCheck layers).1.countP
      (fun i => i.itype == IssueType.output_mismatch) = 0 :=
  countP_output_bottleneckFold layers _

theorem filter_adjout_bottleneckCheck (layers : List Layer) :
    (bottleneckCheck layers).2.filter
      (fun f => f.ftype == FixType.adjust_output) = [] :=
  filter_adjout_bottleneckFold layers _

/-- C9: for every input, `validateModelShape` returns `isValid` equal to the
emptiness of `issues`, and issues and suggestions are pushed in matched pairs,
so the two lists always have equal length. -/
theorem c9_validator_result_invariants (layers : List Layer) (inputShape : InputShape)
    (expected : Option Nat) :
    (validateModelShape layers inputShape expected).isValid
      = (validateModelShape layers inputShape expected).issues.isEmpty ∧
    (validateModelShape layers inputShape expected).issues.length
      = (validateModelShape layers inputShape expected).suggestions.length := by
  cases layers with
  | nil => exact ⟨rfl, rfl⟩
  | cons l0 rest =>
    refine ⟨rfl, ?_⟩
    simp only [validateModelShape, List.length_append]
    rw [firstLayerCheck_balanced, outputCheck_balanced, bottleneckCheck_balanced]

/-- C6 counterexample: the single-layer list whose last layer's `units` value
is the number 0 differs from the expected output size 1, yet
`validateModelShape` returns `isValid = true` with no `output_mismatch` issue,
because `lastLayer.units || currentSize` treats 0 as falsy and falls back to
the propagated size (here 1). -/
theorem c6_counterexample :
    layersUnitsZero.getLast?.map Layer.units = some (some 0) ∧
    some 0 ≠ some 1 ∧
    (validateModelShape layersUnitsZero (.scalar 1) (some 1)).isValid = true ∧
    outputMismatchCount (validateModelShape layersUnitsZero (.scalar 1) (some 1)) = 0 ∧
    (validateModelShape layersUnitsZero (.scalar 1) (some 1)).suggestions = [] := by
  decide

/-- C6 (amended): for every non-empty layer list whose last layer carries a
nonzero `units` value `u` differing from a nonzero `expectedOutputSize` `e`,
the validator returns `isValid = false` with exactly one `output_mismatch`
issue and exactly one `adjust_output` suggestion, and that suggestion's action
replaces the layer list with one whose last layer's units equal `e`. -/
theorem c6_amended (layers : List Layer) (inputShape : InputShape) (last : Layer) (u e : Nat)
    (hlast : layers.getLast? = some last) (hu : last.units = some u)
    (hu0 : u ≠ 0) (he0 : e ≠ 0) (hne : u ≠ e) :
    (validateModelShape layers inputShape (some e)).isValid = false ∧
    outputMismatchCount (validateModelShape layers inputShape (some e)) = 1 ∧
    (outputFixes (validateModelShape layers inputShape (some e))).map
        (fun f => actionLastUnits f.action) = [some (some e)] := by
  obtain ⟨l0, rest, rfl⟩ : ∃ l0 rest, layers = l0 :: rest := by
    cases layers with
    | nil => simp at hlast
    | cons a b => exact ⟨a, b, rfl⟩
  have hout := outputCheck_fires (l0 :: rest) inputShape.toSize last u e hlast hu hu0 he0 hne
  refine ⟨?_, ?_, ?_⟩
  · simp only [validateModelShape]
    rw [hout]
    cases hA : (firstLayerCheck (l0 :: rest) inputShape.toSize).1 <;> rfl
  · simp only [outputMismatchCount, validateModelShape]
    rw [hout, List.countP_append, List.countP_append,
      countP_output_firstLayerCheck, countP_output_bottleneckCheck]
    rfl
  · simp only [outputFixes, validateModelShape]
    rw [hout, List.filter_append, List.filter_append,
      filter_adjout_firstLayerCheck, filter_adjout_bottleneckCheck]
    simp only [List.nil_append, List.append_nil, List.filter, List.map]
    rw [actionLastUnits, getLast?_set_last _ _ (by simp)]
    rfl

/-- C6 witness: for the concrete scenario (one Dense layer of 10 units,
3-feature input, expected output size 1) the amended statement evaluates as
stated. -/
theorem c6_witness :
    (validateModelShape layersTen (.scalar 3) (some 1)).isValid = false ∧
    outputMismatchCount (validateModelShape layersTen (.scalar 3) (some 1)) = 1 ∧
    (outputFixes (validateModelShape layersTen (.scalar 3) (some 1))).map
        (fun f => actionLastUnits f.action) = [some (some 1)] :=
  c6_amended layersTen (.scalar 3) ⟨"layer-1", "Dense", some 10⟩ 10 1
    (by decide) (by decide) (by decide) (by decide) (by decide)

/-! ## Worker loop theorems -/

/-- C1 (evaluation of the code at the scenario input): for
`epochs=5, batchSize=32, speed=1` over the 100-sample dataset, the run emits
exactly five `metrics` messages, but their `epoch` payloads are `0,0,0,0,0`
(the fit-internal epoch index of each single-epoch `fit` call), not
`0,1,2,3,4`, and the trailing `complete` message carries `finalEpoch = 0`,
not 4. -/
theorem c1_metrics_epochs_all_zero :
    metricsEpochs (workerStartTraining stA).msgs = [0, 0, 0, 0, 0] ∧
    (workerStartTraining stA).msgs.getLast? = some (WMsg.complete 0) ∧
    metricsEpochs (workerStartTraining stA).msgs ≠ [0, 1, 2, 3, 4] ∧
    (WMsg.complete 4) ∉ (workerStartTraining stA).msgs := by
  decide

/-- C3 counterexample: a `stop` command observed at the per-batch cooperative
yield is reported with an `error` message, not a `paused` message, because
`stop` clears `isPaused` before the thrown cancellation reaches the catch
block. -/
theorem c3_counterexample :
    batchYieldCancels (workerStop stMidRun) = true ∧
    interruptMsg (workerStop stMidRun) = WMsg.error ("Training paused or stopped") ∧
    isPausedMsg (interruptMsg (workerStop stMidRun)) = false := by
  decide

/-- C3 (amended): an interruption observed at the per-batch yield is signalled
with a `paused` message after a `pause` command (which sets `isPaused`), but
with an `error` message after a `stop` command (which clears both flags), so
only pause-induced interruption is distinguishable from failure. -/
theorem c3_amended (st : WorkerState) :
    (batchYieldCancels (workerPause st) = true ∧
      interruptMsg (workerPause st) = WMsg.paused st.currentEpoch none ∧
      isPausedMsg (interruptMsg (workerPause st)) = true) ∧
    (batchYieldCancels (workerStop st) = true ∧
      interruptMsg (workerStop st) = WMsg.error ("Training paused or stopped") ∧
      isPausedMsg (interruptMsg (workerStop st)) = false) := by
  simp [batchYieldCancels, workerPause, workerStop, interruptMsg, isPausedMsg]

/-- C8: a `start` with `speed = 0` (and a configured run of at least one
epoch) ends with `paused{epoch:0, reason:'manual_mode'}` having executed zero
fit epochs, never emits `complete`, and leaves the worker paused awaiting
`step`. -/
theorem c8_manual_mode_halt (st : WorkerState) (cfg : TrainCfg) (td : TrainData)
    (hc : st.config = some cfg) (ht : st.trainingData = some td)
    (hsp : cfg.speed = 0) (hep : 0 < cfg.epochs) :
    (workerStartTraining st).msgs.getLast? = some (WMsg.paused 0 (some ("manual_mode"))) ∧
    (workerStartTraining st).fits = 0 ∧
    hasComplete (workerStartTraining st).msgs = false ∧
    (workerStartTraining st).state.isPaused = true := by
  have hep' : ¬cfg.epochs = 0 := Nat.pos_iff_ne_zero.mp hep
  simp only [workerStartTraining, hc, ht]
  rw [if_neg hep', if_pos hsp]
  cases hm : st.hasModel <;>
    simp [hasComplete, predMsg]

/-- C8 witness: the manual-mode configuration over the 4-row dataset. -/
theorem c8_witness :
    (workerStartTraining stManual).msgs.getLast? = some (WMsg.paused 0 (some ("manual_mode"))) ∧
    (workerStartTraining stManual).fits = 0 ∧
    hasComplete (workerStartTraining stManual).msgs = false ∧
    (workerStartTraining stManual).state.isPaused = true :=
  c8_manual_mode_halt stManual cfgManual ⟨rows4, rows4⟩
    (by decide) (by decide) (by decide) (by decide)

/-- C10: a `step` command is a complete no-op (no state change, no response
message, no training step) when the guard fails — no config installed, no
training data, or speed ≠ 0 — and, even behind a passing guard, a payload
whose `type` field is neither `'batch'` nor `'epoch'` (such as the unified
store's `{stepType:'batch'}` payload, whose `type` field is undefined) runs no
training step. -/
theorem c10_step_noop (st : WorkerState) (p : StepPayload) :
    (stepGuards st = false → handleStep st p = (st, [], 0)) ∧
    (p.typeField ≠ some ("batch") → p.typeField ≠ some ("epoch") →
      handleStep st p = (st, [], 0)) := by
  constructor
  · intro hg
    simp [handleStep, hg]
  · intro hb he
    by_cases hg : stepGuards st = true
    · simp only [handleStep, hg, if_pos]
      cases hcfg : st.config with
      | none => rfl
      | some cfg =>
        cases htd : st.trainingData with
        | none => rfl
        | some td =>
          cases hpt : p.typeField with
          | none => rfl
          | some t =>
            have ht1 : ¬t = "batch" := fun h => hb (by rw [hpt, h])
            have ht2 : ¬t = "epoch" := fun h => he (by rw [hpt, h])
            simp [ht1, ht2]
    · simp [handleStep, Bool.eq_false_iff.mpr hg]

/-- C10 witness: an unconfigured worker ignores a `{stepType:'batch'}`-shaped
step payload (whose `type` field is undefined), and so would a configured one. -/
theorem c10_witness :
    handleStep initialWorkerState ⟨none⟩ = (initialWorkerState, [], 0) :=
  (c10_step_noop initialWorkerState ⟨none⟩).1 (by decide)

/-! ## Validation-split and prediction lemmas -/

theorem tfSlice0_take (rows : Rows) (k : Nat) : tfSlice0 rows 0 (k : Int) = rows.take k := by
  simp [tfSlice0]

theorem tfSlice0_drop (rows : Rows) (k : Nat) : tfSlice0 rows k (-1) = rows.drop k := by
  simp [tfSlice0]

/-- With a split fraction below 1, the split index is at most the row count. -/
theorem splitIndexOf_le (n : Nat) (s : ℚ) (h0 : 0 ≤ s) :
    splitIndexOf n s ≤ n := by
  have h1' : (n : ℚ) * (1 - s) ≤ (n : ℚ) := by
    nlinarith [Nat.cast_nonneg (α := ℚ) n]
  have h2 := Int.floor_le_floor h1'
  rw [Int.floor_natCast] at h2
  unfold splitIndexOf ratFloorNat
  omega

/-- With a positive split fraction over a non-empty dataset, the split index
is strictly below the row count. -/
theorem splitIndexOf_lt (n : Nat) (s : ℚ) (h0 : 0 < s) (hn : 0 < n) :
    splitIndexOf n s < n := by
  have hn' : (0 : ℚ) < (n : ℚ) := by exact_mod_cast hn
  have h2 : Int.floor ((n : ℚ) * (1 - s)) < (n : Int) := by
    rw [Int.floor_lt]
    push_cast
    nlinarith
  unfold splitIndexOf ratFloorNat
  omega

/-- The positive-split branch of `prepareData`: the first `splitIndex` rows
become the training slices, the rest the validation slices. -/
theorem prepareData_pos (xs ys : Rows) (s : ℚ) (h0 : 0 < s) :
    prepareData xs ys (some s) =
      (⟨xs.take (splitIndexOf xs.length s), ys.take (splitIndexOf xs.length s)⟩,
       some ⟨xs.drop (splitIndexOf xs.length s), ys.drop (splitIndexOf xs.length s)⟩) := by
  simp only [prepareData]
  rw [if_pos h0, tfSlice0_take, tfSlice0_take, tfSlice0_drop, tfSlice0_drop]

/-- C7: with a split fraction `s ∈ (0,1)` over an `n`-row dataset, the worker
deterministically takes rows `[0, ⌊n(1-s)⌋)` in original order as the training
slice and rows `[⌊n(1-s)⌋, n)` as the validation slice; the two slices
concatenate back to the original dataset (no shuffling). -/
theorem c7_validation_split (xs ys : Rows) (s : ℚ) (h0 : 0 < s) (_h1 : s < 1) :
    (prepareData xs ys (some s)).1.xs = xs.take (splitIndexOf xs.length s) ∧
    (prepareData xs ys (some s)).1.ys = ys.take (splitIndexOf xs.length s) ∧
    (prepareData xs ys (some s)).2 =
      some ⟨xs.drop (splitIndexOf xs.length s), ys.drop (splitIndexOf xs.length s)⟩ ∧
    (prepareData xs ys (some s)).1.xs ++ xs.drop (splitIndexOf xs.length s) = xs ∧
    (prepareData xs ys (some s)).1.xs.length = splitIndexOf xs.length s := by
  rw [prepareData_pos xs ys s h0]
  refine ⟨rfl, rfl, rfl, List.take_append_drop _ xs, ?_⟩
  rw [List.length_take]
  exact Nat.min_eq_left (splitIndexOf_le xs.length s (le_of_lt h0))

/-- C7 witness: a 5-row dataset with split fraction 2/5 gives the first 3 rows
as the training slice and the last 2 as the validation slice. -/
theorem c7_witness :
    (prepareData rows5 rows5 (some q25)).1.xs = rows5.take (splitIndexOf rows5.length q25) ∧
    (prepareData rows5 rows5 (some q25)).1.ys = rows5.take (splitIndexOf rows5.length q25) ∧
    (prepareData rows5 rows5 (some q25)).2 =
      some ⟨rows5.drop (splitIndexOf rows5.length q25), rows5.drop (splitIndexOf rows5.length q25)⟩ ∧
    (prepareData rows5 rows5 (some q25)).1.xs ++ rows5.drop (splitIndexOf rows5.length q25) = rows5 ∧
    (prepareData rows5 rows5 (some q25)).1.xs.length = splitIndexOf rows5.length q25 :=
  c7_validation_split rows5 rows5 q25 (by decide) (by decide)

/-- The split index of the concrete 10-row/0.2 configuration. -/
theorem splitIndexOf_ten : splitIndexOf 10 q15 = 8 := by
  norm_num [splitIndexOf, ratFloorNat, q15, Rat.divInt_eq_div]
  rfl

theorem stdPreds_length (len : Nat) : (stdPreds len).length = len := by
  simp [stdPreds]

theorem alignedPreds_stdPreds (len : Nat) : alignedPreds (stdPreds len) = true := by
  simp [alignedPreds, stdPreds_length]

/-- Index alignment of `sendPredictions` entries: the entry at position `i`
carries index `i`. -/
theorem stdPreds_get (len : Nat) (i : Fin (stdPreds len).length) :
    ((stdPreds len).get i).index = i.1 := by
  simp [stdPreds]

theorem predictions_of_epochMsgs (td : TrainData) (bs e : Nat) (ps : List Pred)
    (h : WMsg.predictions ps ∈ epochMsgs td bs e) : ps = stdPreds td.xs.length := by
  simp only [epochMsgs, predMsg, List.mem_append, List.mem_map, List.mem_range,
    List.mem_cons, List.not_mem_nil, or_false] at h
  rcases h with ⟨b, _, hb⟩ | h | h
  · cases hb
  · cases h
  · cases h
    rfl

theorem predictions_of_loopMsgs (td : TrainData) (bs n : Nat) (ps : List Pred)
    (h : WMsg.predictions ps ∈ loopMsgs td bs n) : ps = stdPreds td.xs.length := by
  induction n with
  | zero => cases h
  | succ k ih =>
    rcases List.mem_append.mp h with h' | h'
    · exact ih h'
    · exact predictions_of_epochMsgs td bs k ps h'

theorem predictions_of_initMsgs (b : Bool) (td : TrainData) (ps : List Pred)
    (h : WMsg.predictions ps ∈ (if b = true then [] else [predMsg td])) :
    ps = stdPreds td.xs.length := by
  cases b
  · simp only [Bool.false_eq_true, if_false, predMsg, List.mem_singleton,
      WMsg.predictions.injEq] at h
    exact h
  · simp at h

/-- Every `predictions` payload a `startTraining` run posts is the
`sendPredictions` recomputation over the installed training slice. -/
theorem predictions_of_start (st : WorkerState) (cfg : TrainCfg) (td : TrainData)
    (ps : List Pred) (hc : st.config = some cfg) (ht : st.trainingData = some td)
    (h : WMsg.predictions ps ∈ (workerStartTraining st).msgs) :
    ps = stdPreds td.xs.length := by
  simp only [workerStartTraining, hc, ht] at h
  split at h
  · simp only [StartOutcome.msgs] at h
    rcases List.mem_append.mp h with h' | h'
    · exact predictions_of_initMsgs st.hasModel td ps h'
    · simp at h'
  · split at h
    · simp only [StartOutcome.msgs] at h
      rcases List.mem_append.mp h with h' | h'
      · exact predictions_of_initMsgs st.hasModel td ps h'
      · simp at h'
    · simp only [StartOutcome.msgs] at h
      rcases List.mem_append.mp h with h' | h'
      · rcases List.mem_append.mp h' with h'' | h''
        · exact predictions_of_initMsgs st.hasModel td ps h''
        · exact predictions_of_loopMsgs td cfg.batchSize cfg.epochs ps h''
      · simp at h'

/-- A fresh configured worker posts the initial `sendPredictions` message
first, in every branch of `startTraining`. -/
theorem start_msgs_head (st : WorkerState) (cfg : TrainCfg) (td : TrainData)
    (hc : st.config = some cfg) (ht : st.trainingData = some td)
    (hm : st.hasModel = false) :
    ∃ rest, (workerStartTraining st).msgs = predMsg td :: rest := by
  simp only [workerStartTraining, hc, ht, hm]
  split
  · exact ⟨_, rfl⟩
  · split
    · exact ⟨_, rfl⟩
    · exact ⟨_, rfl⟩

/-- C2 counterexample: with `validationSplit = 0.2` over the 10-row dataset,
both emitted prediction sets (initial and per-epoch) have length
8 = ⌊10·0.8⌋, not 10 = the full `dataConfig.xs` length. -/
theorem c2_counterexample :
    predictionLengths (workerStartTraining stB).msgs = [8, 8] ∧
    rows10.length = 10 ∧ (8 : Nat) ≠ 10 := by
  have h8 : splitIndexOf rows10.length q15 = 8 := splitIndexOf_ten
  have hp : prepareData rows10 rows10 (some q15) =
      (⟨List.replicate 8 [0], List.replicate 8 [0]⟩,
       some ⟨List.replicate 2 [0], List.replicate 2 [0]⟩) := by
    rw [prepareData_pos rows10 rows10 q15 (by decide), h8]
    decide
  have hst : stB = { initialWorkerState with
                     config := some cfgB,
                     trainingData := some ⟨List.replicate 8 [0], List.replicate 8 [0]⟩,
                     validationData := some ⟨List.replicate 2 [0], List.replicate 2 [0]⟩ } := by
    simp only [stB, applyConfig]
    rw [show cfgB.validationSplit = some q15 from rfl, hp]
  rw [hst]
  decide

/-- C2 (amended): every prediction set a configured run emits satisfies
`predictions[i].index == i`, and its length equals the length of the
post-validation-split training slice, `⌊n·(1-s)⌋`, which is strictly smaller
than the full `dataConfig.xs` length whenever `s ∈ (0,1)` and the dataset is
non-empty; at least one prediction set is emitted. -/
theorem c2_amended (cfg : TrainCfg) (xs ys : Rows) (s : ℚ)
    (hs : cfg.validationSplit = some s) (h0 : 0 < s) (_h1 : s < 1) (hn : xs ≠ []) :
    allPredsAlignedLen (workerStartTraining (applyConfig initialWorkerState cfg xs ys)).msgs
        (splitIndexOf xs.length s) = true ∧
    predictionLengths (workerStartTraining (applyConfig initialWorkerState cfg xs ys)).msgs ≠ [] ∧
    splitIndexOf xs.length s < xs.length := by
  have hnpos : 0 < xs.length := List.length_pos.mpr hn
  have hklt := splitIndexOf_lt xs.length s h0 hnpos
  have hkle := splitIndexOf_le xs.length s (le_of_lt h0)
  have hc : (applyConfig initialWorkerState cfg xs ys).config = some cfg := rfl
  have ht : (applyConfig initialWorkerState cfg xs ys).trainingData
      = some (prepareData xs ys cfg.validationSplit).1 := rfl
  have htdlen : (prepareData xs ys cfg.validationSplit).1.xs.length
      = splitIndexOf xs.length s := by
    rw [hs, prepareData_pos xs ys s h0]
    simp [List.length_take, Nat.min_eq_left hkle]
  refine ⟨?_, ?_, hklt⟩
  · unfold allPredsAlignedLen
    rw [List.all_eq_true]
    intro m hm
    cases m with
    | predictions ps =>
      have hps := predictions_of_start (applyConfig initialWorkerState cfg xs ys)
        cfg (prepareData xs ys cfg.validationSplit).1 ps hc ht hm
      rw [hps, htdlen]
      simp [alignedPreds_stdPreds, stdPreds_length]
    | progress e b => rfl
    | metrics e => rfl
    | paused e r => rfl
    | complete e => rfl
    | error msg => rfl
  · obtain ⟨rest, hr⟩ := start_msgs_head (applyConfig initialWorkerState cfg xs ys)
      cfg (prepareData xs ys cfg.validationSplit).1 hc ht rfl
    rw [hr]
    simp [predictionLengths, predMsg]

/-- C2 witness: the amended statement at the concrete 10-row, split-0.2,
one-epoch configuration. -/
theorem c2_witness :
    allPredsAlignedLen (workerStartTraining (applyConfig initialWorkerState cfgB rows10 rows10)).msgs
        (splitIndexOf rows10.length q15) = true ∧
    predictionLengths (workerStartTraining (applyConfig initialWorkerState cfgB rows10 rows10)).msgs ≠ [] ∧
    splitIndexOf rows10.length q15 < rows10.length :=
  c2_amended cfgB rows10 rows10 q15 rfl (by decide) (by decide) (by decide)

/-! ## Store theorems -/

/-- C4 counterexample: in the unified store, neither the stop command nor the
(accepted) start command resets `currentEpoch` to 0 — stopping the mid-run
state at epoch 3 leaves the counter at 3. -/
theorem c4_counterexample :
    sTrain3.trainingState = TState.training ∧
    sTrain3.currentEpoch = 3 ∧
    (oscarStopTraining sTrain3).1.currentEpoch = 3 ∧
    (oscarStopTraining sTrain3).1.trainingState = TState.idle ∧
    (oscarStartTraining sTrain3).1.currentEpoch = 3 ∧
    (3 : Nat) ≠ 0 := by
  decide

/-- C4 (amended): in the unified store `currentEpoch` is non-decreasing under
worker messages carrying non-decreasing epoch payloads (`progress` with a zero
epoch leaves it unchanged; `metrics`, `predictions`, `paused` and `complete`
never modify it), but neither `start` nor `stop` resets it; it is reset to 0
by `clearAllData`, `resetTraining` and `resetModel`, and set directly by
`scrubToEpoch`. -/
theorem c4_amended (s : OscarState) (e b k : Nat) (m : MetricPoint) (ps : List Pred)
    (hmono : e = 0 ∨ s.currentEpoch ≤ e) :
    s.currentEpoch ≤ (oscarOnProgress s e b).currentEpoch ∧
    (oscarOnMetrics s m).currentEpoch = s.currentEpoch ∧
    (oscarOnPredictions s ps).currentEpoch = s.currentEpoch ∧
    (oscarOnPaused s).currentEpoch = s.currentEpoch ∧
    (oscarOnComplete s).currentEpoch = s.currentEpoch ∧
    (oscarStopTraining s).1.currentEpoch = s.currentEpoch ∧
    (oscarStartTraining s).1.currentEpoch = s.currentEpoch ∧
    (oscarClearAllData s).currentEpoch = 0 ∧
    (oscarResetTraining s).currentEpoch = 0 ∧
    (oscarResetModel s).currentEpoch = 0 ∧
    (oscarScrubToEpoch s k).currentEpoch = k := by
  refine ⟨?_, rfl, rfl, rfl, rfl, rfl, ?_, rfl, rfl, rfl, rfl⟩
  · simp only [oscarOnProgress]
    rcases hmono with h | h
    · simp [h]
    · split
      · exact le_refl _
      · exact h
  · cases hw : s.worker with
    | none => simp [oscarStartTraining, hw]
    | some g =>
      simp only [oscarStartTraining, hw]
      split
      · rfl
      · split <;> rfl

/-- C4 witness: the amended statement at the concrete mid-run store state. -/
theorem c4_witness :
    sTrain3.currentEpoch ≤ (oscarOnProgress sTrain3 5 1).currentEpoch ∧
    (oscarOnMetrics sTrain3 ⟨4⟩).currentEpoch = sTrain3.currentEpoch ∧
    (oscarOnPredictions sTrain3 []).currentEpoch = sTrain3.currentEpoch ∧
    (oscarOnPaused sTrain3).currentEpoch = sTrain3.currentEpoch ∧
    (oscarOnComplete sTrain3).currentEpoch = sTrain3.currentEpoch ∧
    (oscarStopTraining sTrain3).1.currentEpoch = sTrain3.currentEpoch ∧
    (oscarStartTraining sTrain3).1.currentEpoch = sTrain3.currentEpoch ∧
    (oscarClearAllData sTrain3).currentEpoch = 0 ∧
    (oscarResetTraining sTrain3).currentEpoch = 0 ∧
    (oscarResetModel sTrain3).currentEpoch = 0 ∧
    (oscarScrubToEpoch sTrain3 9).currentEpoch = 9 :=
  c4_amended sTrain3 5 1 9 ⟨4⟩ [] (Or.inr (by decide))

/-- C5 counterexample: an accepted start in the unified store (worker, dataset
and model config all present) dispatches `start` to the pre-existing worker
without clearing metrics/predictions/activations, without resetting the epoch
counter, and without replacing the worker instance. -/
theorem c5_counterexample :
    (oscarStartTraining sTrain3).2 = [WCmd.start] ∧
    (oscarStartTraining sTrain3).1.trainingMetrics = [⟨0⟩] ∧
    (oscarStartTraining sTrain3).1.modelPredictions = [⟨0⟩] ∧
    (oscarStartTraining sTrain3).1.layerActivations = [()] ∧
    (oscarStartTraining sTrain3).1.currentEpoch = 3 ∧
    (oscarStartTraining sTrain3).1.worker = sTrain3.worker ∧
    sTrain3.trainingMetrics ≠ [] := by
  decide

/-- Evaluation of the legacy store's accepted start. -/
theorem legacyStartTraining_eval (s : LegacyState) (hd : s.hasDataset = true) :
    legacyStartTraining s =
      ({ s with trainingState := .training, currentEpoch := 0, currentBatch := 0,
                totalEpochs := s.cfgEpochs,
                trainingMetrics := [], layerActivations := [], modelPredictions := [],
                worker := some s.nextWorkerId, nextWorkerId := s.nextWorkerId + 1 },
       [WCmd.config, WCmd.start]) := by
  simp only [legacyStartTraining]
  rw [if_pos hd]
  rfl

/-- C5 (amended): the *legacy* training store's accepted start clears prior
metrics, predictions and activations, resets the epoch and batch counters to
0, tears down the previous worker and creates a fresh instance, and only then
dispatches `config` followed by `start`; the unified store's start (see the
counterexample) performs none of these and reuses the existing worker. -/
theorem c5_amended (s : LegacyState) (hd : s.hasDataset = true)
    (hw : s.worker.all (fun g => decide (g < s.nextWorkerId)) = true) :
    (legacyStartTraining s).1.trainingMetrics = [] ∧
    (legacyStartTraining s).1.layerActivations = [] ∧
    (legacyStartTraining s).1.modelPredictions = [] ∧
    (legacyStartTraining s).1.currentEpoch = 0 ∧
    (legacyStartTraining s).1.currentBatch = 0 ∧
    (legacyStartTraining s).1.trainingState = TState.training ∧
    (legacyStartTraining s).1.worker = some s.nextWorkerId ∧
    (legacyStartTraining s).1.worker ≠ s.worker ∧
    (legacyStartTraining s).2 = [WCmd.config, WCmd.start] := by
  rw [legacyStartTraining_eval s hd]
  refine ⟨rfl, rfl, rfl, rfl, rfl, rfl, rfl, ?_, rfl⟩
  cases hwk : s.worker with
  | none => simp
  | some g =>
    have hlt : g < s.nextWorkerId := by
      rw [hwk] at hw
      simpa using hw
    simp only [ne_eq, Option.some.injEq]
    omega

/-- C5 witness: the amended statement at the concrete legacy-store state. -/
theorem c5_witness :
    (legacyStartTraining sLegacy).1.trainingMetrics = [] ∧
    (legacyStartTraining sLegacy).1.layerActivations = [] ∧
    (legacyStartTraining sLegacy).1.modelPredictions = [] ∧
    (legacyStartTraining sLegacy).1.currentEpoch = 0 ∧
    (legacyStartTraining sLegacy).1.currentBatch = 0 ∧
    (legacyStartTraining sLegacy).1.trainingState = TState.training ∧
    (legacyStartTraining sLegacy).1.worker = some sLegacy.nextWorkerId ∧
    (legacyStartTraining sLegacy).1.worker ≠ sLegacy.worker ∧
    (legacyStartTraining sLegacy).2 = [WCmd.config, WCmd.start] :=
  c5_amended sLegacy (by decide) (by decide)

end MARVIN
